import Mathlib

/-!
Shallow embedding of `src/controller.py` from the cq-game-communication-system
repository: the session lifecycle orchestrator that provisions a network,
builds and launches one server and N client containers, signals game start,
polls for completion, and tears resources down.

The Docker engine and the filesystem are modelled by an `Engine` oracle that
fixes, for each operation the controller performs, whether it succeeds or
which error it raises.  Each Python function becomes a Lean function that
returns its result together with the ordered list of externally visible
`Event`s it performed, mirroring the source control flow statement by
statement.  Python exceptions become `Except`/`Outcome` values: an uncaught
docker error propagates as `.error`/`.raised` exactly where the source has no
enclosing `try`.
-/

namespace Controller

/-- Boolean test that `p` begins the list `l` (character-list prefix). -/
def beginsWith : List Char → List Char → Bool
  | [], _ => true
  | _ :: _, [] => false
  | a :: as, b :: bs => a == b && beginsWith as bs

/-- Boolean test that `n` occurs contiguously somewhere inside `l`. -/
def occursIn (n : List Char) : List Char → Bool
  | [] => beginsWith n []
  | l@(_ :: rest) => beginsWith n l || occursIn n rest

/-- String `hay` contains `needle` as a contiguous substring. -/
def containsSub (hay needle : String) : Bool :=
  occursIn needle.data hay.data

/-- Modelled from the spec: the static configuration module `config` is not
under `src/`; the spec treats it as trivial static values, so its fields are
opaque parameters here.  `debug` is the debug-mode flag set from the CLI. -/
structure Config where
  server_docker_file : String
  client_docker_file : String
  server_container_working_dir : String
  client_container_working_dir : String
  server_host_name : String
  client_memory_limit : String
  check_game_has_finished_interval : Nat
  debug : Bool
deriving Repr, DecidableEq

/-- Docker error values, mirroring the docker-py exception hierarchy used by
the source: `ImageNotFound ⊂ NotFound ⊂ APIError`.  `notFound` stands for a
`NotFound` that is not an `ImageNotFound`, `apiError` for an `APIError` that
is not a `NotFound`; every value is an `APIError`. -/
inductive DockerErr where
  | imageNotFound
  | notFound
  | apiError
deriving Repr, DecidableEq

/-- Whether a raised docker error is caught by `except APIError` (all are). -/
def DockerErr.isAPIError : DockerErr → Bool
  | _ => true

/-- Whether a raised docker error is caught by `except NotFound`. -/
def DockerErr.isNotFound : DockerErr → Bool
  | .imageNotFound => true
  | .notFound => true
  | .apiError => false

/-- Whether a raised docker error is caught by `except ImageNotFound`. -/
def DockerErr.isImageNotFound : DockerErr → Bool
  | .imageNotFound => true
  | _ => false

/-- Arguments of a `containers.run` call: the keys of the `ports` pairs are
container ports and the values host ports, as in docker-py; `volumes` pairs
are (host source, container bind path) with mode `rw`. -/
structure RunConfig where
  image : String
  name : String
  network : String
  hostname : Option String
  ports : Option (List (Nat × Nat))
  autoRemove : Bool
  volumes : List (String × String)
  memLimit : Option String
deriving Repr, DecidableEq

/-- Externally visible actions the controller performs, in program order. -/
inductive Event where
  | networkCreate (name : String)
  | writeFile (path content : String)
  | removeFile (path : String)
  | buildImage (tag : String)
  | volumeForceRemove (name : String)
  | volumeCreate (name : String)
  | ensureEmptyFolder (path : String)
  | runContainer (rc : RunConfig)
  | execRun (container cmd : String)
  | reloadStatus
  | sleep (seconds : Nat)
  | writeLog (container : String)
  | logFailedLogs (container : String)
  | logFailedRemove (container : String)
  | removeContainer (name : String)
  | removeImage (tag : String)
  | removeNetwork (name : String)
deriving Repr, DecidableEq

/-- The docker engine / filesystem oracle: for each operation the controller
may attempt, whether it succeeds (`none`) or raises a given docker error,
plus the session's random token, the working directory, and the server
container status observed at each successive `reload()`. -/
structure Engine where
  token : String
  cwd : String
  networkCreate : String → Option DockerErr
  buildResult : String → Option DockerErr
  volumeExists : String → Bool
  runResult : String → Option DockerErr
  execResult : Option DockerErr
  statusAt : Nat → String
  logsResult : String → Option DockerErr
  containerRemove : String → Option DockerErr
  imageRemove : String → Option DockerErr
  networkRemove : Option DockerErr

/-- Name of the per-session network (`create_network`, controller.py:24). -/
def networkName (game_secret : String) : String :=
  "cq_network_" ++ game_secret

/-- Tag of the built server image (controller.py:95). -/
def serverImageName (game_secret : String) : String :=
  "cq_server_image_" ++ game_secret

/-- Name of the server container (controller.py:115). -/
def serverContainerName (game_secret : String) : String :=
  "cq_server_" ++ game_secret

/-- Tag of a built client image (controller.py:189). -/
def clientImageName (clientId game_secret : String) : String :=
  "cq_client_image_" ++ clientId ++ "_" ++ game_secret

/-- Name of a client container (controller.py:205). -/
def clientContainerName (client_index : Nat) (game_secret : String) : String :=
  "cq_client_" ++ toString client_index ++ "_" ++ game_secret

/-- The fixed replay volume name passed to `ensure_empty_volume_exists`
(controller.py:107). -/
def replayVolumeName : String := "cq-game-replay"

/-- `ensure_empty_volume_exists` (controller.py:28-35): force-remove the
volume if it exists (a `NotFound` from the lookup is swallowed), then create
it afresh. -/
def ensure_empty_volume_exists (eng : Engine) (volume_name : String) : List Event :=
  (if eng.volumeExists volume_name then [Event.volumeForceRemove volume_name] else [])
    ++ [Event.volumeCreate volume_name]

/-- A client roster entry, after the CLI glue has stringified all fields. -/
structure ClientSpec where
  id : String
  name : String
  image : String
deriving Repr, DecidableEq

/-- The server sidecar argument string inlined into the entrypoint:
`" ".join([game_secret] + list(sidecar_args))` (controller.py:76). -/
def serverSidecarArgsStr (game_secret : String) (sidecar_args : List String) : String :=
  String.intercalate " " (game_secret :: sidecar_args)

/-- The `program_exe` leg of the server entrypoint (controller.py:79-84). -/
def serverProgramExe (cfg : Config) (server_args_str : String) : String :=
  if cfg.debug then
    "EXEC:\x27python " ++ cfg.server_container_working_dir
      ++ "/sidecar_debugger_inside.py 6000\x27"
  else
    "EXEC:\x27sh " ++ cfg.server_container_working_dir ++ "/run.sh "
      ++ server_args_str ++ "\x27"

/-- The server ENTRYPOINT line (controller.py:87-92), with the sidecar
argument string interpolated between the sidecar script path and the
closing quote. -/
def serverEntrypointLine (cfg : Config) (game_secret sidecar_args_str program_exe : String) :
    String :=
  "ENTRYPOINT [\"/bin/sh\", \"-c\", \"echo STARTED-" ++ game_secret
    ++ " && socat -v EXEC:\x27python " ++ cfg.server_container_working_dir
    ++ "/server_sidecar.py " ++ sidecar_args_str ++ "\x27 " ++ program_exe ++ "\"]\n"

/-- Full content written to the server docker file (controller.py:62-92). -/
def serverDockerfileContent (cfg : Config) (server_image game_secret : String)
    (server_args sidecar_args : List String) : String :=
  "FROM " ++ server_image ++ "\n"
    ++ "RUN mkdir -p " ++ cfg.server_container_working_dir ++ "\n"
    ++ "COPY config.py " ++ cfg.server_container_working_dir ++ "\n"
    ++ "COPY server_sidecar.py " ++ cfg.server_container_working_dir ++ "\n"
    ++ (if cfg.debug then
          "COPY sidecar_debugger_inside.py " ++ cfg.server_container_working_dir ++ "\n"
        else "")
    ++ serverEntrypointLine cfg game_secret
        (serverSidecarArgsStr game_secret sidecar_args)
        (serverProgramExe cfg (String.intercalate " " server_args))

/-- Content of the client side-channel argument file
`"\n".join([game_secret, client["id"], client["name"]] + list(sidecar_args))`
(controller.py:164-166). -/
def clientSidecarArgsFileContent (game_secret : String) (client : ClientSpec)
    (sidecar_args : List String) : String :=
  String.intercalate "\n" (game_secret :: client.id :: client.name :: sidecar_args)

/-- In-image path of the copied client sidecar args file (controller.py:169). -/
def sidecarArgsFilePath (cfg : Config) : String :=
  cfg.client_container_working_dir ++ "/sidecar_args"

/-- The `program_exe` leg of the client entrypoint (controller.py:173-178).
In debug mode the source addresses the debug bridge under the SERVER
container working directory, not the client one. -/
def clientProgramExe (cfg : Config) (client_args_str : String) : String :=
  if cfg.debug then
    "EXEC:\x27python " ++ cfg.server_container_working_dir
      ++ "/sidecar_debugger_inside.py 6000\x27"
  else
    "EXEC:\x27sh " ++ cfg.client_container_working_dir ++ "/run.sh "
      ++ client_args_str ++ "\x27"

/-- The client ENTRYPOINT line (controller.py:181-186): the client sidecar is
invoked on the args FILE path, no sidecar argument value is inlined. -/
def clientEntrypointLine (cfg : Config) (game_secret program_exe : String) : String :=
  "ENTRYPOINT [\"/bin/sh\", \"-c\", \"echo STARTED-" ++ game_secret
    ++ " && socat -v EXEC:\x27python " ++ cfg.client_container_working_dir
    ++ "/client_sidecar.py " ++ sidecarArgsFilePath cfg ++ "\x27 "
    ++ program_exe ++ "\"]\n"

/-- Full content written to the client docker file (controller.py:146-186). -/
def clientDockerfileContent (cfg : Config) (client : ClientSpec) (game_secret : String)
    (client_args : List String) : String :=
  "FROM " ++ client.image ++ "\n"
    ++ "RUN mkdir -p " ++ cfg.client_container_working_dir ++ "\n"
    ++ "COPY config.py " ++ cfg.client_container_working_dir ++ "\n"
    ++ "COPY client_sidecar.py " ++ cfg.client_container_working_dir ++ "\n"
    ++ (if cfg.debug then
          "COPY sidecar_debugger_inside.py " ++ cfg.client_container_working_dir ++ "\n"
        else "")
    ++ "COPY _temp_sidecar_args_file " ++ sidecarArgsFilePath cfg ++ "\n"
    ++ clientEntrypointLine cfg game_secret
        (clientProgramExe cfg (String.intercalate " " client_args))

/-- The `containers.run` call for the server (controller.py:111-126). -/
def serverRunConfig (cfg : Config) (network_name game_secret live_replay_folder : String) :
    RunConfig where
  image := serverImageName game_secret
  name := serverContainerName game_secret
  network := network_name
  hostname := some cfg.server_host_name
  ports := if cfg.debug then some [(6000, 6000)] else none
  autoRemove := false
  volumes := [(replayVolumeName, "/codequest/replay"),
              (live_replay_folder, "/codequest/live-replay")]
  memLimit := none

/-- The `containers.run` call for a client (controller.py:202-213). -/
def clientRunConfig (cfg : Config) (network_name : String) (client_index : Nat)
    (client : ClientSpec) (game_secret : String) : RunConfig where
  image := clientImageName client.id game_secret
  name := clientContainerName client_index game_secret
  network := network_name
  hostname := none
  ports := if cfg.debug then some [(6000, 6001 + client_index)] else none
  autoRemove := false
  volumes := []
  memLimit := some cfg.client_memory_limit

/-- `start_server` (controller.py:54-126): write the docker file, build the
image (a build failure propagates with the temp file still on disk), remove
the literal path `"server_docker_file"`, reset the replay volume and the
live-replay folder, and run the container.  Returns (container name, image
tag). -/
def start_server (cfg : Config) (eng : Engine) (network_name server_image game_secret : String)
    (server_args sidecar_args : List String) :
    Except DockerErr (String × String) × List Event :=
  let content := serverDockerfileContent cfg server_image game_secret server_args sidecar_args
  let tag := serverImageName game_secret
  let evs0 := [Event.writeFile cfg.server_docker_file content, Event.buildImage tag]
  match eng.buildResult tag with
  | some e => (.error e, evs0)
  | none =>
    let live := eng.cwd ++ "/live_replay_files"
    let rc := serverRunConfig cfg network_name game_secret live
    let evs1 := evs0 ++ [Event.removeFile "server_docker_file"]
      ++ ensure_empty_volume_exists eng replayVolumeName
      ++ [Event.ensureEmptyFolder live, Event.runContainer rc]
    match eng.runResult rc.name with
    | some e => (.error e, evs1)
    | none => (.ok (rc.name, tag), evs1)

/-- `start_client` (controller.py:137-213): write the docker file and the
side-channel sidecar args file, build the image (a build failure propagates
with both temp files still on disk), remove both temp files, and run the
container.  Returns (container name, image tag). -/
def start_client (cfg : Config) (eng : Engine) (network_name : String) (client_index : Nat)
    (client : ClientSpec) (game_secret : String) (client_args sidecar_args : List String) :
    Except DockerErr (String × String) × List Event :=
  let content := clientDockerfileContent cfg client game_secret client_args
  let argsContent := clientSidecarArgsFileContent game_secret client sidecar_args
  let tag := clientImageName client.id game_secret
  let evs0 := [Event.writeFile cfg.client_docker_file content,
               Event.writeFile "_temp_sidecar_args_file" argsContent,
               Event.buildImage tag]
  match eng.buildResult tag with
  | some e => (.error e, evs0)
  | none =>
    let rc := clientRunConfig cfg network_name client_index client game_secret
    let evs1 := evs0 ++ [Event.removeFile "_temp_sidecar_args_file",
                         Event.removeFile "client_docker_file",
                         Event.runContainer rc]
    match eng.runResult rc.name with
    | some e => (.error e, evs1)
    | none => (.ok (rc.name, tag), evs1)

/-- The command string of `send_game_started_signal_to_server`
(controller.py:129-134). -/
def gameStartedCmd (cfg : Config) : String :=
  "/bin/sh -c \x27touch " ++ cfg.server_container_working_dir ++ "/GAME_STARTED\x27"

/-- The `while server_container.status == "running"` poll loop body
(controller.py:292-294), fuel-bounded: starting from the `i`-th observed
status, each iteration while the status reads `"running"` sleeps the
configured interval and reloads once more.  Returns the emitted events and
the index of the first non-running observation (or `none` if the fuel runs
out while still running, modelling an unfinished wait). -/
def pollTrace (statusAt : Nat → String) (interval : Nat) :
    Nat → Nat → List Event × Option Nat
  | 0, _ => ([], none)
  | fuel + 1, i =>
    if statusAt i = "running" then
      (Event.sleep interval :: Event.reloadStatus :: (pollTrace statusAt interval fuel (i + 1)).1,
       (pollTrace statusAt interval fuel (i + 1)).2)
    else
      ([], some i)

/-- `write_logs_and_remove_containers` (controller.py:216-236): clear or
create the log folder, then for each container write its log file (an
`APIError` from log retrieval is caught and logged) and force-remove it (an
`APIError`, which includes NotFound, is caught and logged).  Total: no
docker error escapes this phase. -/
def write_logs_and_remove_containers (eng : Engine) (folder_path : String)
    (containers : List String) : List Event :=
  Event.ensureEmptyFolder folder_path ::
    (containers.map (fun name =>
      [Event.writeLog name]
        ++ (match eng.logsResult name with
            | some _ => [Event.logFailedLogs name]
            | none => [])
        ++ [Event.removeContainer name]
        ++ (match eng.containerRemove name with
            | some _ => [Event.logFailedRemove name]
            | none => []))).flatten

/-- `remove_images` (controller.py:239-244): force-remove each image in
order; only `ImageNotFound` is caught, any other docker error propagates and
stops the remaining image removals. -/
def remove_images (eng : Engine) : List String → Except DockerErr Unit × List Event
  | [] => (.ok (), [])
  | img :: rest =>
    match eng.imageRemove img with
    | some DockerErr.imageNotFound =>
      ((remove_images eng rest).1, Event.removeImage img :: (remove_images eng rest).2)
    | some e => (.error e, [Event.removeImage img])
    | none =>
      ((remove_images eng rest).1, Event.removeImage img :: (remove_images eng rest).2)

/-- The `for i, client in enumerate(clients)` loop of `run_game`
(controller.py:266-282), started at index `i`: builds and launches each
client in order, accumulating container names and image tags; the first
failure propagates. -/
def start_clients (cfg : Config) (eng : Engine) (network_name game_secret : String)
    (client_args : List String) :
    List ClientSpec → Nat → Except DockerErr (List String × List String) × List Event
  | [], _ => (.ok ([], []), [])
  | c :: rest, i =>
    let r := start_client cfg eng network_name i c game_secret client_args []
    match r.1 with
    | .error e => (.error e, r.2)
    | .ok ci =>
      let r2 := start_clients cfg eng network_name game_secret client_args rest (i + 1)
      match r2.1 with
      | .error e => (.error e, r.2 ++ r2.2)
      | .ok rest2 => (.ok (ci.1 :: rest2.1, ci.2 :: rest2.2), r.2 ++ r2.2)

/-- Result of a `run_game` call: normal return, an uncaught docker error
escaping the call, or a poll loop that outlived its fuel (the source loop
would still be spinning). -/
inductive Outcome where
  | ok
  | raised (e : DockerErr)
  | diverged
deriving Repr, DecidableEq

/-- `run_game` (controller.py:247-301).  Creates the network, starts the
server then each client (any failure propagates uncaught — there is no
try/finally around the build-up), sends the start signal (an `APIError` from
the exec is caught and logged, and the poll loop is then skipped), polls the
server status until it is not `"running"`, then tears down: container
logs+removal (total), image removal (non-ImageNotFound errors propagate),
network removal (errors propagate). -/
def run_game (cfg : Config) (eng : Engine) (fuel : Nat) (server_image : String)
    (clients : List ClientSpec) (server_args client_args : List String) :
    Outcome × List Event :=
  let game_secret := eng.token
  let network_name := networkName game_secret
  let ev0 := [Event.networkCreate network_name]
  match eng.networkCreate network_name with
  | some e => (.raised e, ev0)
  | none =>
    let sres := start_server cfg eng network_name server_image game_secret server_args []
    match sres.1 with
    | .error e => (.raised e, ev0 ++ sres.2)
    | .ok sv =>
      let cres := start_clients cfg eng network_name game_secret client_args clients 0
      match cres.1 with
      | .error e => (.raised e, ev0 ++ sres.2 ++ cres.2)
      | .ok cl =>
        let evSig := [Event.execRun sv.1 (gameStartedCmd cfg)]
        let pres :=
          match eng.execResult with
          | some _ => (([] : List Event), true)
          | none =>
            (Event.reloadStatus ::
               (pollTrace eng.statusAt cfg.check_game_has_finished_interval fuel 0).1,
             (pollTrace eng.statusAt cfg.check_game_has_finished_interval fuel 0).2.isSome)
        if pres.2 then
          let evT1 := write_logs_and_remove_containers eng "container_logs" (sv.1 :: cl.1)
          let ires := remove_images eng (sv.2 :: cl.2)
          match ires.1 with
          | .error e =>
            (.raised e, ev0 ++ sres.2 ++ cres.2 ++ evSig ++ pres.1 ++ evT1 ++ ires.2)
          | .ok _ =>
            let evAll := ev0 ++ sres.2 ++ cres.2 ++ evSig ++ pres.1 ++ evT1 ++ ires.2
              ++ [Event.removeNetwork network_name]
            match eng.networkRemove with
            | some e => (.raised e, evAll)
            | none => (.ok, evAll)
        else
          (.diverged, ev0 ++ sres.2 ++ cres.2 ++ evSig ++ pres.1)

/-! Event classification predicates and auxiliary definitions used by the
theorems below. -/

/-- Teardown-phase resource removals: container, image, or network removal. -/
def isRemovalEvent : Event → Bool
  | .removeContainer _ => true
  | .removeImage _ => true
  | .removeNetwork _ => true
  | _ => false

/-- The start-signal exec against the server container. -/
def isExecEvent : Event → Bool
  | .execRun _ _ => true
  | _ => false

/-- Completion-watch events: a status reload or a sleep between polls. -/
def isPollEvent : Event → Bool
  | .reloadStatus => true
  | .sleep _ => true
  | _ => false

/-- Docker volume operations (force-remove or create). -/
def isVolumeEvent : Event → Bool
  | .volumeForceRemove _ => true
  | .volumeCreate _ => true
  | _ => false

/-- Removal of a staged temp file from the working directory. -/
def isRemoveFileEvent : Event → Bool
  | .removeFile _ => true
  | _ => false

/-- Events a build-up phase may emit (everything except signal exec, polling
and resource removal); teardown emits none of the volume/folder/build-up
side effects on the replay volume. -/
def isBuildUpEvent (e : Event) : Bool :=
  !(isExecEvent e || isPollEvent e || isRemovalEvent e)

instance {ε α : Type} [DecidableEq ε] [DecidableEq α] : DecidableEq (Except ε α) :=
  fun a b =>
    match a, b with
    | .error x, .error y =>
      if h : x = y then .isTrue (by rw [h]) else .isFalse (by intro hh; injection hh; exact h (by assumption))
    | .error _, .ok _ => .isFalse (by intro hh; exact Except.noConfusion hh)
    | .ok _, .error _ => .isFalse (by intro hh; exact Except.noConfusion hh)
    | .ok x, .ok y =>
      if h : x = y then .isTrue (by rw [h]) else .isFalse (by intro hh; injection hh; exact h (by assumption))

/-- No resource-removal event occurs in the trace. -/
def noRemovalEvents (l : List Event) : Bool := l.all (fun e => !isRemovalEvent e)

/-- No start-signal exec event occurs in the trace. -/
def noExecEvents (l : List Event) : Bool := l.all (fun e => !isExecEvent e)

/-- No status-poll or sleep event occurs in the trace. -/
def noPollEvents (l : List Event) : Bool := l.all (fun e => !isPollEvent e)

/-- No docker volume operation occurs in the trace. -/
def noVolumeEvents (l : List Event) : Bool := l.all (fun e => !isVolumeEvent e)

/-- No staged temp file removal occurs in the trace. -/
def noRemoveFileEvents (l : List Event) : Bool := l.all (fun e => !isRemoveFileEvent e)

/-- An event that is neither a signal exec, nor a poll/sleep, nor a volume
operation (the teardown phases emit only such events). -/
def isSilentEvent (e : Event) : Bool :=
  !isExecEvent e && !isPollEvent e && !isVolumeEvent e

/-- The container names `run_game` accumulates for clients starting at launch
index `i` (`client_containers`, controller.py:266-281). -/
def clientContainerNames (game_secret : String) : List ClientSpec → Nat → List String
  | [], _ => []
  | _ :: rest, i => clientContainerName i game_secret :: clientContainerNames game_secret rest (i + 1)

/-- The image tags `run_game` accumulates for clients (`client_images`). -/
def clientImageNames (game_secret : String) (clients : List ClientSpec) : List String :=
  clients.map (fun c => clientImageName c.id game_secret)

/-- Engine behavior under which every client build and run starting at index
`i` succeeds. -/
def clientsOk (eng : Engine) (game_secret : String) : List ClientSpec → Nat → Bool
  | [], _ => true
  | c :: rest, i =>
    (eng.buildResult (clientImageName c.id game_secret) == none)
      && (eng.runResult (clientContainerName i game_secret) == none)
      && clientsOk eng game_secret rest (i + 1)

/-- Engine behavior under which `remove_images` raises nothing: each image
removal either succeeds or fails with `ImageNotFound` (which is caught). -/
def imagesRemovable (eng : Engine) (imgs : List String) : Bool :=
  imgs.all (fun t =>
    (eng.imageRemove t == none) || (eng.imageRemove t == some DockerErr.imageNotFound))

/-! Concrete fixtures used by counterexamples and witnesses. -/

/-- A concrete configuration with debug mode off. -/
def cfgEx : Config where
  server_docker_file := "server_docker_file"
  client_docker_file := "client_docker_file"
  server_container_working_dir := "/codequest"
  client_container_working_dir := "/cqclient"
  server_host_name := "game-server"
  client_memory_limit := "1g"
  check_game_has_finished_interval := 5
  debug := false

/-- The same configuration with debug mode on. -/
def cfgExDbg : Config := { cfgEx with debug := true }

/-- A concrete engine on which every operation succeeds, the replay volume
pre-exists, and the server leaves the `"running"` state at the third
observation. -/
def engOk : Engine where
  token := "tok3n"
  cwd := "/work"
  networkCreate := fun _ => none
  buildResult := fun _ => none
  volumeExists := fun _ => true
  runResult := fun _ => none
  execResult := none
  statusAt := fun i => if i < 2 then "running" else "exited"
  logsResult := fun _ => none
  containerRemove := fun _ => none
  imageRemove := fun _ => none
  networkRemove := none

/-- An engine on which the server image build raises an `APIError`. -/
def engServerBuildFail : Engine :=
  { engOk with
    buildResult := fun t => if t = serverImageName "tok3n" then some DockerErr.apiError else none }

/-- An engine on which the first client's image build raises an `APIError`. -/
def engClientBuildFail : Engine :=
  { engOk with
    buildResult := fun t =>
      if t = clientImageName "7" "tok3n" then some DockerErr.apiError else none }

/-- An engine on which removing the built server image raises an `APIError`
that is not an `ImageNotFound`. -/
def engImageRemoveFail : Engine :=
  { engOk with
    imageRemove := fun t => if t = serverImageName "tok3n" then some DockerErr.apiError else none }

/-- An engine on which the start-signal exec raises an `APIError`. -/
def engExecFail : Engine :=
  { engOk with execResult := some DockerErr.apiError }

/-- An engine on which fetching the logs of and force-removing the container
`"c1"` each raise an `APIError`. -/
def engContainerRemoveFail : Engine :=
  { engOk with
    logsResult := fun nm => if nm = "c1" then some DockerErr.apiError else none,
    containerRemove := fun nm => if nm = "c1" then some DockerErr.apiError else none }

/-- An engine on which the start-signal exec raises an `APIError` and the
network removal also raises an `APIError`. -/
def engNetworkRemoveFail : Engine :=
  { engOk with
    execResult := some DockerErr.apiError,
    networkRemove := some DockerErr.apiError }

/-- A concrete two-client roster. -/
def clientsEx : List ClientSpec :=
  [⟨"7", "Team A", "imgA"⟩, ⟨"9", "Team B", "imgB"⟩]

/-! Substring lemmas for `containsSub`. -/

theorem beginsWith_append (l ys : List Char) : beginsWith l (l ++ ys) = true := by
  induction l with
  | nil => rfl
  | cons a as ih => simp [beginsWith, ih]

theorem occursIn_nil_needle (l : List Char) : occursIn [] l = true := by
  induction l with
  | nil => rfl
  | cons a rest ih => simp [occursIn, ih, beginsWith]

theorem occursIn_appendR (n ys : List Char) (h : occursIn n ys = true) (xs : List Char) :
    occursIn n (xs ++ ys) = true := by
  induction xs with
  | nil => simpa using h
  | cons x rest ih => simp [occursIn, ih]

theorem beginsWith_appendL (n xs : List Char) (h : beginsWith n xs = true) (ys : List Char) :
    beginsWith n (xs ++ ys) = true := by
  induction n generalizing xs with
  | nil => rfl
  | cons a as ih =>
    cases xs with
    | nil => simp [beginsWith] at h
    | cons b bs =>
      simp [beginsWith] at h ⊢
      exact ⟨h.1, ih bs h.2⟩

theorem occursIn_appendL (n xs : List Char) (h : occursIn n xs = true) (ys : List Char) :
    occursIn n (xs ++ ys) = true := by
  induction xs with
  | nil =>
    cases n with
    | nil => exact occursIn_nil_needle ys
    | cons a as => simp [occursIn, beginsWith] at h
  | cons x rest ih =>
    simp only [occursIn, Bool.or_eq_true] at h
    simp only [List.cons_append, occursIn, Bool.or_eq_true]
    rcases h with h | h
    · exact Or.inl (beginsWith_appendL n (x :: rest) h ys)
    · exact Or.inr (ih h)

theorem occursIn_self (n : List Char) : occursIn n n = true := by
  cases n with
  | nil => rfl
  | cons a as =>
    have h := beginsWith_append (a :: as) []
    rw [List.append_nil] at h
    simp [occursIn, h]

theorem containsSub_suffix (p s : String) : containsSub (p ++ s) s = true := by
  unfold containsSub
  rw [String.data_append]
  exact occursIn_appendR s.data s.data (occursIn_self s.data) p.data

theorem containsSub_appendL (a b s : String) (h : containsSub a s = true) :
    containsSub (a ++ b) s = true := by
  unfold containsSub at h ⊢
  rw [String.data_append]
  exact occursIn_appendL s.data a.data h b.data

theorem containsSub_appendR (a b s : String) (h : containsSub b s = true) :
    containsSub (a ++ b) s = true := by
  unfold containsSub at h ⊢
  rw [String.data_append]
  exact occursIn_appendR s.data b.data h a.data

/-! The completion-watch poll loop. -/

theorem pollTrace_spec (statusAt : Nat → String) (interval fuel i k : Nat)
    (h : (pollTrace statusAt interval fuel i).2 = some k) :
    i ≤ k ∧ statusAt k ≠ "running" ∧ (∀ j, i ≤ j → j < k → statusAt j = "running") ∧
      (pollTrace statusAt interval fuel i).1
        = (List.replicate (k - i) [Event.sleep interval, Event.reloadStatus]).flatten := by
  induction fuel generalizing i with
  | zero => simp [pollTrace] at h
  | succ fuel ih =>
    by_cases hr : statusAt i = "running"
    · have h' : (pollTrace statusAt interval fuel (i + 1)).2 = some k := by
        simpa [pollTrace, hr] using h
      obtain ⟨hik, hk, hall, htr⟩ := ih (i + 1) h'
      refine ⟨by omega, hk, ?_, ?_⟩
      · intro j hij hjk
        rcases Nat.eq_or_lt_of_le hij with rfl | hlt
        · exact hr
        · exact hall j hlt hjk
      · have hstep : (pollTrace statusAt interval (fuel + 1) i).1
            = Event.sleep interval :: Event.reloadStatus ::
                (pollTrace statusAt interval fuel (i + 1)).1 := by
          simp [pollTrace, hr]
        rw [hstep, htr]
        have hki : k - i = (k - (i + 1)) + 1 := by omega
        rw [hki, List.replicate_succ]
        simp
    · have hik : i = k := by
        have : some i = some k := by simpa [pollTrace, hr] using h
        exact Option.some.inj this
      subst hik
      refine ⟨le_refl i, hr, ?_, ?_⟩
      · intro j hij hji
        omega
      · simp [pollTrace, hr]

/-- C7: the completion wait of `run_game` repeatedly reloads the server
status with a sleep of the configured interval between consecutive reloads,
and returns exactly at the first observation that is not `"running"`: every
earlier observation was `"running"`, the returned observation is not, and
the emitted trace is precisely one `[sleep, reload]` pair per iteration
spent in the `"running"` state. -/
theorem C7_completion_watch_polls_until_not_running
    (statusAt : Nat → String) (interval fuel k : Nat)
    (h : (pollTrace statusAt interval fuel 0).2 = some k) :
    statusAt k ≠ "running" ∧ (∀ j, j < k → statusAt j = "running") ∧
      (pollTrace statusAt interval fuel 0).1
        = (List.replicate k [Event.sleep interval, Event.reloadStatus]).flatten := by
  obtain ⟨-, hk, hall, htr⟩ := pollTrace_spec statusAt interval fuel 0 k h
  exact ⟨hk, fun j hj => hall j (Nat.zero_le j) hj, by simpa using htr⟩

/-- Witness for C7 at a concrete status schedule that leaves `"running"` at
the third observation. -/
theorem C7_completion_watch_polls_until_not_running_witness :
    engOk.statusAt 2 ≠ "running" ∧
      (pollTrace engOk.statusAt 5 10 0).1
        = (List.replicate 2 [Event.sleep 5, Event.reloadStatus]).flatten :=
  ⟨(C7_completion_watch_polls_until_not_running engOk.statusAt 5 10 2 (by decide)).1,
   (C7_completion_watch_polls_until_not_running engOk.statusAt 5 10 2 (by decide)).2.2⟩

/-- C8: in the `containers.run` arguments built by `start_server` and
`start_client` (whose `ports` pairs are (container port, host port) as in
docker-py), debug mode maps host port 6000 to the server container port 6000
and host port `6001 + i` to container port 6000 for the client at launch
index `i`; with debug mode off, no port mapping is configured for either. -/
theorem C8_debug_port_mappings (cfg : Config) (network_name game_secret live : String)
    (i : Nat) (client : ClientSpec) :
    (cfg.debug = true →
        (serverRunConfig cfg network_name game_secret live).ports = some [(6000, 6000)] ∧
        (clientRunConfig cfg network_name i client game_secret).ports
          = some [(6000, 6001 + i)]) ∧
      (cfg.debug = false →
        (serverRunConfig cfg network_name game_secret live).ports = none ∧
        (clientRunConfig cfg network_name i client game_secret).ports = none) := by
  constructor <;> intro h <;> simp [serverRunConfig, clientRunConfig, h]

/-- C3 counterexample: for the server, a sidecar argument value containing
whitespace IS interpolated verbatim into the generated entrypoint command
string, so the claim that side-process argument values are never inlined for
every participant fails on the server. -/
theorem C3_counterexample_server_args_inlined :
    containsSub
      (serverEntrypointLine cfgEx "tok3n"
        (serverSidecarArgsStr "tok3n" ["weird arg"]) (serverProgramExe cfgEx ""))
      "weird arg" = true := by
  decide

/-- C3 amended: for every CLIENT, sidecar argument values are written to the
side-channel file `_temp_sidecar_args_file` copied into the image, the
generated client entrypoint references only the in-image file path, and the
client docker file content is independent of the sidecar argument values;
for the SERVER, the space-joined sidecar argument string is interpolated
directly into the generated entrypoint command string. -/
theorem C3_amended_sidecar_args_channels (cfg : Config) (eng : Engine)
    (network_name game_secret : String) (server_args srv_sidecar_args : List String)
    (i : Nat) (client : ClientSpec) (client_args cl_sidecar_args : List String) :
    containsSub
        (serverEntrypointLine cfg game_secret
          (serverSidecarArgsStr game_secret srv_sidecar_args)
          (serverProgramExe cfg (String.intercalate " " server_args)))
        (serverSidecarArgsStr game_secret srv_sidecar_args) = true ∧
      (start_client cfg eng network_name i client game_secret
          client_args cl_sidecar_args).2.take 2
        = [Event.writeFile cfg.client_docker_file
             (clientDockerfileContent cfg client game_secret client_args),
           Event.writeFile "_temp_sidecar_args_file"
             (clientSidecarArgsFileContent game_secret client cl_sidecar_args)] ∧
      containsSub
        (clientEntrypointLine cfg game_secret
          (clientProgramExe cfg (String.intercalate " " client_args)))
        (sidecarArgsFilePath cfg) = true := by
  refine ⟨?_, ?_, ?_⟩
  · unfold serverEntrypointLine
    exact containsSub_appendL _ _ _ (containsSub_appendL _ _ _
      (containsSub_appendL _ _ _ (containsSub_suffix _ _)))
  · unfold start_client
    rcases hb : eng.buildResult (clientImageName client.id game_secret) with _ | e
    · rcases hr : eng.runResult
          (clientRunConfig cfg network_name i client game_secret).name with _ | e
      all_goals simp [hb, hr]
    · simp [hb]
  · unfold clientEntrypointLine
    exact containsSub_appendL _ _ _ (containsSub_appendL _ _ _
      (containsSub_appendL _ _ _ (containsSub_suffix _ _)))

/-- C4 counterexample: on an all-success session with token `"tok3n"`, the
session creates the docker volume `"cq-game-replay"`, an engine resource
whose name does not contain the session token, so the claim quantified over
every engine resource created by the session fails. -/
theorem C4_counterexample_volume_name_lacks_token :
    Event.volumeCreate "cq-game-replay"
        ∈ (run_game cfgEx engOk 10 "srv:latest" clientsEx [] []).2 ∧
      containsSub "cq-game-replay" engOk.token = false := by
  decide

/-- C4 amended: every network, image, and container name created during a
session contains the session token as a substring (the fixed-name replay
volume is the exception the counterexample exhibits). -/
theorem C4_amended_resource_names_contain_token (game_secret clientId : String) (i : Nat) :
    containsSub (networkName game_secret) game_secret = true ∧
      containsSub (serverImageName game_secret) game_secret = true ∧
      containsSub (serverContainerName game_secret) game_secret = true ∧
      containsSub (clientImageName clientId game_secret) game_secret = true ∧
      containsSub (clientContainerName i game_secret) game_secret = true := by
  refine ⟨?_, ?_, ?_, ?_, ?_⟩
  · exact containsSub_suffix _ _
  · exact containsSub_suffix _ _
  · exact containsSub_suffix _ _
  · exact containsSub_suffix _ _
  · exact containsSub_suffix _ _

set_option maxRecDepth 40000 in
/-- C5 counterexample: when the server image build fails, `start_server`
propagates the error and performs no temp-file removal at all — the staged
build recipe is left behind, refuting removal "regardless of whether the
build succeeded or failed". -/
theorem C5_counterexample_files_left_on_build_failure :
    (start_server cfgEx engServerBuildFail "net" "srv:latest" "tok3n" [] []).1
        = Except.error DockerErr.apiError ∧
      Event.writeFile cfgEx.server_docker_file
          (serverDockerfileContent cfgEx "srv:latest" "tok3n" [] [])
        ∈ (start_server cfgEx engServerBuildFail "net" "srv:latest" "tok3n" [] []).2 ∧
      noRemoveFileEvents
        (start_server cfgEx engServerBuildFail "net" "srv:latest" "tok3n" [] []).2 = true := by
  decide

/-- C5 amended: the staged temp files are removed immediately after the
build call only on build SUCCESS (for the server, `"server_docker_file"`
right after the build; for a client, `"_temp_sidecar_args_file"` then
`"client_docker_file"`); on build failure the error propagates and no
temp-file removal happens. -/
theorem C5_amended_temp_files_removed_on_success_only (cfg : Config) (eng : Engine)
    (network_name server_image game_secret : String)
    (server_args srv_sidecar_args : List String) (i : Nat) (client : ClientSpec)
    (client_args cl_sidecar_args : List String) :
    (eng.buildResult (serverImageName game_secret) = none →
        (start_server cfg eng network_name server_image game_secret
            server_args srv_sidecar_args).2.take 3
          = [Event.writeFile cfg.server_docker_file
               (serverDockerfileContent cfg server_image game_secret
                 server_args srv_sidecar_args),
             Event.buildImage (serverImageName game_secret),
             Event.removeFile "server_docker_file"]) ∧
      (∀ e, eng.buildResult (serverImageName game_secret) = some e →
        (start_server cfg eng network_name server_image game_secret
            server_args srv_sidecar_args).1 = .error e ∧
          noRemoveFileEvents (start_server cfg eng network_name server_image game_secret
            server_args srv_sidecar_args).2 = true) ∧
      (eng.buildResult (clientImageName client.id game_secret) = none →
        (start_client cfg eng network_name i client game_secret
            client_args cl_sidecar_args).2.take 5
          = [Event.writeFile cfg.client_docker_file
               (clientDockerfileContent cfg client game_secret client_args),
             Event.writeFile "_temp_sidecar_args_file"
               (clientSidecarArgsFileContent game_secret client cl_sidecar_args),
             Event.buildImage (clientImageName client.id game_secret),
             Event.removeFile "_temp_sidecar_args_file",
             Event.removeFile "client_docker_file"]) ∧
      (∀ e, eng.buildResult (clientImageName client.id game_secret) = some e →
        (start_client cfg eng network_name i client game_secret
            client_args cl_sidecar_args).1 = .error e ∧
          noRemoveFileEvents (start_client cfg eng network_name i client game_secret
            client_args cl_sidecar_args).2 = true) := by
  refine ⟨?_, ?_, ?_, ?_⟩
  · intro hb
    unfold start_server
    rcases hr : eng.runResult
        (serverRunConfig cfg network_name game_secret
          (eng.cwd ++ "/live_replay_files")).name with _ | e
    all_goals simp [hb, hr]
  · intro e hb
    unfold start_server
    simp [hb, noRemoveFileEvents, isRemoveFileEvent]
  · intro hb
    unfold start_client
    rcases hr : eng.runResult
        (clientRunConfig cfg network_name i client game_secret).name with _ | e
    all_goals simp [hb, hr]
  · intro e hb
    unfold start_client
    simp [hb, noRemoveFileEvents, isRemoveFileEvent]

/-- Witness for C5 amended: all four clauses discharged at concrete engines
(successful builds on `engOk`; failing server and client builds on the
corresponding failing engines). -/
theorem C5_amended_temp_files_removed_on_success_only_witness :
    (start_server cfgEx engOk "net" "srv:latest" "tok3n" [] []).2.take 3
        = [Event.writeFile cfgEx.server_docker_file
             (serverDockerfileContent cfgEx "srv:latest" "tok3n" [] []),
           Event.buildImage (serverImageName "tok3n"),
           Event.removeFile "server_docker_file"] ∧
      (start_server cfgEx engServerBuildFail "net" "srv:latest" "tok3n" [] []).1
          = .error DockerErr.apiError ∧
      (start_client cfgEx engOk "net" 0 ⟨"7", "Team A", "imgA"⟩ "tok3n" [] []).2.take 5
        = [Event.writeFile cfgEx.client_docker_file
             (clientDockerfileContent cfgEx ⟨"7", "Team A", "imgA"⟩ "tok3n" []),
           Event.writeFile "_temp_sidecar_args_file"
             (clientSidecarArgsFileContent "tok3n" ⟨"7", "Team A", "imgA"⟩ []),
           Event.buildImage (clientImageName "7" "tok3n"),
           Event.removeFile "_temp_sidecar_args_file",
           Event.removeFile "client_docker_file"] ∧
      (start_client cfgEx engClientBuildFail "net" 0 ⟨"7", "Team A", "imgA"⟩ "tok3n" [] []).1
          = .error DockerErr.apiError :=
  ⟨(C5_amended_temp_files_removed_on_success_only cfgEx engOk "net" "srv:latest" "tok3n"
      [] [] 0 ⟨"7", "Team A", "imgA"⟩ [] []).1 (by decide),
   ((C5_amended_temp_files_removed_on_success_only cfgEx engServerBuildFail "net" "srv:latest"
      "tok3n" [] [] 0 ⟨"7", "Team A", "imgA"⟩ [] []).2.1 DockerErr.apiError (by decide)).1,
   (C5_amended_temp_files_removed_on_success_only cfgEx engOk "net" "srv:latest" "tok3n"
      [] [] 0 ⟨"7", "Team A", "imgA"⟩ [] []).2.2.1 (by decide),
   ((C5_amended_temp_files_removed_on_success_only cfgEx engClientBuildFail "net" "srv:latest"
      "tok3n" [] [] 0 ⟨"7", "Team A", "imgA"⟩ [] []).2.2.2 DockerErr.apiError (by decide)).1⟩

/-- Witness for C8 at the concrete debug and non-debug configurations and
launch index 1. -/
theorem C8_debug_port_mappings_witness :
    ((serverRunConfig cfgExDbg "n" "t" "l").ports = some [(6000, 6000)] ∧
        (clientRunConfig cfgExDbg "n" 1 ⟨"7", "A", "img"⟩ "t").ports
          = some [(6000, 6001 + 1)]) ∧
      ((serverRunConfig cfgEx "n" "t" "l").ports = none ∧
        (clientRunConfig cfgEx "n" 1 ⟨"7", "A", "img"⟩ "t").ports = none) :=
  ⟨(C8_debug_port_mappings cfgExDbg "n" "t" "l" 1 ⟨"7", "A", "img"⟩).1 (by decide),
   (C8_debug_port_mappings cfgEx "n" "t" "l" 1 ⟨"7", "A", "img"⟩).2 (by decide)⟩

/-- C10: for a client built in debug mode, the generated entrypoint invokes
the debug-bridge script by a path under the SERVER container working
directory, while the docker file copies the debug-bridge file into the
CLIENT container working directory; the invoked path and the copied path
agree exactly when the two configured directories are equal. -/
theorem C10_debug_bridge_invoked_from_server_dir (cfg : Config) (client : ClientSpec)
    (game_secret : String) (client_args : List String) (h : cfg.debug = true) :
    clientProgramExe cfg (String.intercalate " " client_args)
        = "EXEC:\x27python " ++ cfg.server_container_working_dir
            ++ "/sidecar_debugger_inside.py 6000\x27" ∧
      containsSub (clientDockerfileContent cfg client game_secret client_args)
        ("COPY sidecar_debugger_inside.py " ++ cfg.client_container_working_dir ++ "\n")
        = true ∧
      containsSub (clientDockerfileContent cfg client game_secret client_args)
        ("EXEC:\x27python " ++ cfg.server_container_working_dir
            ++ "/sidecar_debugger_inside.py 6000\x27") = true ∧
      (cfg.server_container_working_dir ++ "/sidecar_debugger_inside.py"
          = cfg.client_container_working_dir ++ "/sidecar_debugger_inside.py"
        ↔ cfg.server_container_working_dir = cfg.client_container_working_dir) := by
  have hexe : clientProgramExe cfg (String.intercalate " " client_args)
      = "EXEC:\x27python " ++ cfg.server_container_working_dir
          ++ "/sidecar_debugger_inside.py 6000\x27" := by
    simp [clientProgramExe, h]
  refine ⟨hexe, ?_, ?_, ?_⟩
  · unfold clientDockerfileContent
    simp only [h, if_true]
    exact containsSub_appendL _ _ _ (containsSub_appendL _ _ _ (containsSub_appendL _ _ _
      (containsSub_appendL _ _ _ (containsSub_suffix _ _))))
  · unfold clientDockerfileContent clientEntrypointLine
    rw [hexe]
    exact containsSub_appendR _ _ _ (containsSub_appendL _ _ _ (containsSub_suffix _ _))
  · constructor
    · intro he
      have hd : (cfg.server_container_working_dir ++ "/sidecar_debugger_inside.py").data
          = (cfg.client_container_working_dir ++ "/sidecar_debugger_inside.py").data := by
        rw [he]
      rw [String.data_append, String.data_append] at hd
      exact String.ext (List.append_cancel_right hd)
    · intro he
      rw [he]

/-- Witness for C10 at the concrete debug configuration, whose server and
client working directories differ. -/
theorem C10_debug_bridge_invoked_from_server_dir_witness :
    clientProgramExe cfgExDbg (String.intercalate " " [])
        = "EXEC:\x27python " ++ cfgExDbg.server_container_working_dir
            ++ "/sidecar_debugger_inside.py 6000\x27" ∧
      containsSub (clientDockerfileContent cfgExDbg ⟨"7", "Team A", "imgA"⟩ "tok3n" [])
        ("COPY sidecar_debugger_inside.py " ++ cfgExDbg.client_container_working_dir ++ "\n")
        = true ∧
      containsSub (clientDockerfileContent cfgExDbg ⟨"7", "Team A", "imgA"⟩ "tok3n" [])
        ("EXEC:\x27python " ++ cfgExDbg.server_container_working_dir
            ++ "/sidecar_debugger_inside.py 6000\x27") = true ∧
      (cfgExDbg.server_container_working_dir ++ "/sidecar_debugger_inside.py"
          = cfgExDbg.client_container_working_dir ++ "/sidecar_debugger_inside.py"
        ↔ cfgExDbg.server_container_working_dir = cfgExDbg.client_container_working_dir) :=
  C10_debug_bridge_invoked_from_server_dir cfgExDbg ⟨"7", "Team A", "imgA"⟩ "tok3n" []
    (by decide)

/-! Helper lemmas about the traces of each phase, used by the
run-game-level claims. -/

theorem noExecEvents_append (a b : List Event) :
    noExecEvents (a ++ b) = (noExecEvents a && noExecEvents b) := by
  simp [noExecEvents, List.all_append]

theorem noRemovalEvents_append (a b : List Event) :
    noRemovalEvents (a ++ b) = (noRemovalEvents a && noRemovalEvents b) := by
  simp [noRemovalEvents, List.all_append]

theorem noPollEvents_append (a b : List Event) :
    noPollEvents (a ++ b) = (noPollEvents a && noPollEvents b) := by
  simp [noPollEvents, List.all_append]

theorem noVolumeEvents_append (a b : List Event) :
    noVolumeEvents (a ++ b) = (noVolumeEvents a && noVolumeEvents b) := by
  simp [noVolumeEvents, List.all_append]

theorem start_server_clean (cfg : Config) (eng : Engine)
    (network_name server_image game_secret : String) (sa sca : List String) :
    noExecEvents (start_server cfg eng network_name server_image game_secret sa sca).2 = true ∧
      noRemovalEvents (start_server cfg eng network_name server_image game_secret sa sca).2 = true ∧
      noPollEvents (start_server cfg eng network_name server_image game_secret sa sca).2 = true := by
  unfold start_server
  rcases hb : eng.buildResult (serverImageName game_secret) with _ | e
  · rcases hr : eng.runResult (serverRunConfig cfg network_name game_secret
        (eng.cwd ++ "/live_replay_files")).name with _ | e2
    all_goals cases hv : eng.volumeExists replayVolumeName
    all_goals simp [hb, hr, hv, ensure_empty_volume_exists, noExecEvents, isExecEvent,
      noRemovalEvents, isRemovalEvent, noPollEvents, isPollEvent]
  · simp [hb, noExecEvents, isExecEvent, noRemovalEvents, isRemovalEvent,
      noPollEvents, isPollEvent]

theorem start_client_clean (cfg : Config) (eng : Engine) (network_name : String)
    (i : Nat) (client : ClientSpec) (game_secret : String) (ca sca : List String) :
    noExecEvents (start_client cfg eng network_name i client game_secret ca sca).2 = true ∧
      noRemovalEvents (start_client cfg eng network_name i client game_secret ca sca).2 = true ∧
      noPollEvents (start_client cfg eng network_name i client game_secret ca sca).2 = true ∧
      noVolumeEvents (start_client cfg eng network_name i client game_secret ca sca).2 = true := by
  unfold start_client
  rcases hb : eng.buildResult (clientImageName client.id game_secret) with _ | e
  · rcases hr : eng.runResult (clientRunConfig cfg network_name i client game_secret).name
        with _ | e2
    all_goals simp [hb, hr, noExecEvents, isExecEvent, noRemovalEvents, isRemovalEvent,
      noPollEvents, isPollEvent, noVolumeEvents, isVolumeEvent]
  · simp [hb, noExecEvents, isExecEvent, noRemovalEvents, isRemovalEvent,
      noPollEvents, isPollEvent, noVolumeEvents, isVolumeEvent]

theorem start_clients_clean (cfg : Config) (eng : Engine) (network_name game_secret : String)
    (ca : List String) (clients : List ClientSpec) (i : Nat) :
    noExecEvents (start_clients cfg eng network_name game_secret ca clients i).2 = true ∧
      noRemovalEvents (start_clients cfg eng network_name game_secret ca clients i).2 = true ∧
      noPollEvents (start_clients cfg eng network_name game_secret ca clients i).2 = true ∧
      noVolumeEvents (start_clients cfg eng network_name game_secret ca clients i).2 = true := by
  induction clients generalizing i with
  | nil => simp [start_clients, noExecEvents, noRemovalEvents, noPollEvents, noVolumeEvents]
  | cons c rest ih =>
    obtain ⟨h1, h2, h3, h4⟩ := start_client_clean cfg eng network_name i c game_secret ca []
    obtain ⟨g1, g2, g3, g4⟩ := ih (i + 1)
    unfold start_clients
    rcases hc : (start_client cfg eng network_name i c game_secret ca []).1 with e | ci
    · simp [hc, h1, h2, h3, h4]
    · rcases hr : (start_clients cfg eng network_name game_secret ca rest (i + 1)).1 with e | r2
      · simp [hc, hr, noExecEvents_append, noRemovalEvents_append, noPollEvents_append,
          noVolumeEvents_append, h1, h2, h3, h4, g1, g2, g3, g4]
      · simp [hc, hr, noExecEvents_append, noRemovalEvents_append, noPollEvents_append,
          noVolumeEvents_append, h1, h2, h3, h4, g1, g2, g3, g4]

theorem noEvents_of_silent (l : List Event) (h : l.all isSilentEvent = true) :
    noExecEvents l = true ∧ noPollEvents l = true ∧ noVolumeEvents l = true := by
  rw [List.all_eq_true] at h
  have h2 : ∀ e ∈ l, isExecEvent e = false ∧ isPollEvent e = false ∧ isVolumeEvent e = false := by
    intro e he
    have hs := h e he
    simp only [isSilentEvent, Bool.and_eq_true, Bool.not_eq_true'] at hs
    exact ⟨hs.1.1, hs.1.2, hs.2⟩
  refine ⟨?_, ?_, ?_⟩
  · simp only [noExecEvents, List.all_eq_true]
    intro e he
    simp [(h2 e he).1]
  · simp only [noPollEvents, List.all_eq_true]
    intro e he
    simp [(h2 e he).2.1]
  · simp only [noVolumeEvents, List.all_eq_true]
    intro e he
    simp [(h2 e he).2.2]

theorem wlrc_all_silent (eng : Engine) (folder : String) (containers : List String) :
    (write_logs_and_remove_containers eng folder containers).all isSilentEvent = true := by
  unfold write_logs_and_remove_containers
  simp only [List.all_cons, Bool.and_eq_true]
  constructor
  · simp [isSilentEvent, isExecEvent, isPollEvent, isVolumeEvent]
  · induction containers with
    | nil => rfl
    | cons n rest ih =>
      simp only [List.map_cons, List.flatten_cons, List.all_append, Bool.and_eq_true]
      refine ⟨?_, ih⟩
      rcases hl : eng.logsResult n with _ | e <;> rcases hr : eng.containerRemove n with _ | e2 <;>
        simp [isSilentEvent, isExecEvent, isPollEvent, isVolumeEvent]

theorem remove_images_all_silent (eng : Engine) (imgs : List String) :
    (remove_images eng imgs).2.all isSilentEvent = true := by
  induction imgs with
  | nil => rfl
  | cons img rest ih =>
    unfold remove_images
    rcases hr : eng.imageRemove img with _ | e
    · simp [isSilentEvent, isExecEvent, isPollEvent, isVolumeEvent, ih]
    · rcases e <;>
        simp [isSilentEvent, isExecEvent, isPollEvent, isVolumeEvent, ih]

theorem pollTrace_no_other (statusAt : Nat → String) (interval fuel i : Nat) :
    noExecEvents (pollTrace statusAt interval fuel i).1 = true ∧
      noRemovalEvents (pollTrace statusAt interval fuel i).1 = true ∧
      noVolumeEvents (pollTrace statusAt interval fuel i).1 = true := by
  induction fuel generalizing i with
  | zero => exact ⟨rfl, rfl, rfl⟩
  | succ fuel ih =>
    obtain ⟨g1, g2, g3⟩ := ih (i + 1)
    by_cases hr : statusAt i = "running" <;>
      simp [pollTrace, hr, noExecEvents, noRemovalEvents, noVolumeEvents,
        isExecEvent, isRemovalEvent, isVolumeEvent] <;>
      simp [noExecEvents, noRemovalEvents, noVolumeEvents] at g1 g2 g3 <;>
      exact ⟨g1, g2, g3⟩

theorem start_server_ok (cfg : Config) (eng : Engine)
    (network_name server_image game_secret : String) (sa sca : List String)
    (hb : eng.buildResult (serverImageName game_secret) = none)
    (hr : eng.runResult (serverContainerName game_secret) = none) :
    (start_server cfg eng network_name server_image game_secret sa sca).1
      = Except.ok (serverContainerName game_secret, serverImageName game_secret) := by
  unfold start_server
  simp [hb, serverRunConfig, hr]

theorem start_client_ok (cfg : Config) (eng : Engine) (network_name : String)
    (i : Nat) (client : ClientSpec) (game_secret : String) (ca sca : List String)
    (hb : eng.buildResult (clientImageName client.id game_secret) = none)
    (hr : eng.runResult (clientContainerName i game_secret) = none) :
    (start_client cfg eng network_name i client game_secret ca sca).1
      = Except.ok (clientContainerName i game_secret, clientImageName client.id game_secret) := by
  unfold start_client
  simp [hb, clientRunConfig, hr]

theorem start_clients_ok (cfg : Config) (eng : Engine) (network_name game_secret : String)
    (ca : List String) (clients : List ClientSpec) (i : Nat)
    (h : clientsOk eng game_secret clients i = true) :
    (start_clients cfg eng network_name game_secret ca clients i).1
      = Except.ok (clientContainerNames game_secret clients i,
          clientImageNames game_secret clients) := by
  induction clients generalizing i with
  | nil => simp [start_clients, clientContainerNames, clientImageNames]
  | cons c rest ih =>
    simp only [clientsOk, Bool.and_eq_true, beq_iff_eq] at h
    obtain ⟨⟨hb, hr⟩, hrest⟩ := h
    have h1 := start_client_ok cfg eng network_name i c game_secret ca [] hb hr
    have h2 := ih (i + 1) hrest
    unfold start_clients
    simp [h1, h2, clientContainerNames, clientImageNames]

theorem wlrc_removeContainer_mem (eng : Engine) (folder n : String)
    (containers : List String) (hn : n ∈ containers) :
    Event.removeContainer n ∈ write_logs_and_remove_containers eng folder containers ∧
      (∀ e, eng.containerRemove n = some e →
        Event.logFailedRemove n ∈ write_logs_and_remove_containers eng folder containers) ∧
      (∀ e, eng.logsResult n = some e →
        Event.logFailedLogs n ∈ write_logs_and_remove_containers eng folder containers) := by
  unfold write_logs_and_remove_containers
  induction containers with
  | nil => cases hn
  | cons m rest ih =>
    rcases List.mem_cons.mp hn with rfl | hmem
    · refine ⟨?_, ?_, ?_⟩
      · simp
      · intro e he
        simp [he]
      · intro e he
        simp [he]
    · obtain ⟨g1, g2, g3⟩ := ih hmem
      simp only [List.mem_cons] at g1 ⊢
      refine ⟨?_, ?_, ?_⟩
      · simp only [List.map_cons, List.flatten_cons, List.mem_append]
        rcases g1 with g1 | g1
        · exact Or.inl (by simp [g1])
        · simp at g1
          simp [g1]
      · intro e he
        have := g2 e he
        simp only [List.mem_cons] at this ⊢
        rcases this with t | t
        · exact Or.inl t
        · simp only [List.map_cons, List.flatten_cons, List.mem_append]
          simp at t
          simp [t]
      · intro e he
        have := g3 e he
        simp only [List.mem_cons] at this ⊢
        rcases this with t | t
        · exact Or.inl t
        · simp only [List.map_cons, List.flatten_cons, List.mem_append]
          simp at t
          simp [t]

theorem remove_images_ok (eng : Engine) (imgs : List String)
    (h : imagesRemovable eng imgs = true) :
    (remove_images eng imgs).1 = Except.ok () ∧
      ∀ t ∈ imgs, Event.removeImage t ∈ (remove_images eng imgs).2 := by
  induction imgs with
  | nil => exact ⟨rfl, by simp⟩
  | cons img rest ih =>
    simp only [imagesRemovable, List.all_cons, Bool.and_eq_true, Bool.or_eq_true,
      beq_iff_eq] at h
    obtain ⟨hhead, hrest⟩ := ih (by simp [imagesRemovable, h.2])
    unfold remove_images
    rcases h.1 with hr | hr <;> simp only [hr]
    · refine ⟨hhead, ?_⟩
      intro t ht
      rcases List.mem_cons.mp ht with rfl | hm
      · simp
      · simp [hrest t hm]
    · refine ⟨hhead, ?_⟩
      intro t ht
      rcases List.mem_cons.mp ht with rfl | hm
      · simp
      · simp [hrest t hm]

theorem remove_images_head_fail (eng : Engine) (img : String) (rest : List String)
    (h : eng.imageRemove img = some DockerErr.apiError) :
    remove_images eng (img :: rest)
      = (Except.error DockerErr.apiError, [Event.removeImage img]) := by
  unfold remove_images
  simp [h]

theorem filter_eq_nil_of_all_not (p : Event → Bool) (l : List Event)
    (h : l.all (fun e => !p e) = true) : l.filter p = [] := by
  induction l with
  | nil => rfl
  | cons x xs ih =>
    simp only [List.all_cons, Bool.and_eq_true, Bool.not_eq_true'] at h
    simp [List.filter_cons, h.1, ih h.2]

theorem start_server_trace_ok (cfg : Config) (eng : Engine)
    (network_name server_image game_secret : String) (sa sca : List String)
    (hsb : eng.buildResult (serverImageName game_secret) = none) :
    (start_server cfg eng network_name server_image game_secret sa sca).2
      = [Event.writeFile cfg.server_docker_file
           (serverDockerfileContent cfg server_image game_secret sa sca),
         Event.buildImage (serverImageName game_secret),
         Event.removeFile "server_docker_file"]
        ++ ensure_empty_volume_exists eng replayVolumeName
        ++ [Event.ensureEmptyFolder (eng.cwd ++ "/live_replay_files"),
            Event.runContainer (serverRunConfig cfg network_name game_secret
              (eng.cwd ++ "/live_replay_files"))] := by
  unfold start_server
  rcases hr : eng.runResult (serverRunConfig cfg network_name game_secret
      (eng.cwd ++ "/live_replay_files")).name with _ | e <;> simp [hsb, hr]

theorem run_game_volume_decomp (cfg : Config) (eng : Engine) (fuel : Nat)
    (server_image : String) (clients : List ClientSpec) (server_args client_args : List String)
    (hn : eng.networkCreate (networkName eng.token) = none) :
    ∃ suffix, (run_game cfg eng fuel server_image clients server_args client_args).2
        = Event.networkCreate (networkName eng.token)
            :: ((start_server cfg eng (networkName eng.token) server_image eng.token
                  server_args []).2 ++ suffix)
      ∧ suffix.filter isVolumeEvent = [] := by
  have fC := filter_eq_nil_of_all_not isVolumeEvent _
    (start_clients_clean cfg eng (networkName eng.token) eng.token client_args clients 0).2.2.2
  have fP : ∀ i : Nat,
      (pollTrace eng.statusAt cfg.check_game_has_finished_interval fuel i).1.filter
        isVolumeEvent = [] := fun i =>
    filter_eq_nil_of_all_not isVolumeEvent _
      (pollTrace_no_other eng.statusAt cfg.check_game_has_finished_interval fuel i).2.2
  simp only [run_game, hn]
  rcases hs : (start_server cfg eng (networkName eng.token) server_image eng.token
      server_args []).1 with e | sv <;> simp only [hs]
  · exact ⟨[], by simp, rfl⟩
  · rcases hc : (start_clients cfg eng (networkName eng.token) eng.token
        client_args clients 0).1 with e | cl <;> simp only [hc]
    · refine ⟨(start_clients cfg eng (networkName eng.token) eng.token
        client_args clients 0).2, ?_, fC⟩
      simp [List.append_assoc]
    · have fW := filter_eq_nil_of_all_not isVolumeEvent _
        (noEvents_of_silent _ (wlrc_all_silent eng "container_logs" (sv.1 :: cl.1))).2.2
      have fI := filter_eq_nil_of_all_not isVolumeEvent _
        (noEvents_of_silent _ (remove_images_all_silent eng (sv.2 :: cl.2))).2.2
      rcases hx : eng.execResult with _ | e2 <;> simp only [hx]
      · cases hp : (pollTrace eng.statusAt cfg.check_game_has_finished_interval fuel 0).2.isSome <;>
          simp only [hp, Bool.false_eq_true, eq_self_iff_true, if_true, if_false]
        · refine ⟨(start_clients cfg eng (networkName eng.token) eng.token
              client_args clients 0).2
            ++ [Event.execRun sv.1 (gameStartedCmd cfg)]
            ++ (Event.reloadStatus ::
                (pollTrace eng.statusAt cfg.check_game_has_finished_interval fuel 0).1), ?_, ?_⟩
          · simp [List.append_assoc]
          · simp only [List.filter_append, List.filter_cons, List.filter_nil, fC, fP 0,
              isVolumeEvent, List.append_nil, List.nil_append]
            try simp
        · rcases hri : (remove_images eng (sv.2 :: cl.2)).1 with e3 | u <;> simp only [hri]
          · refine ⟨(start_clients cfg eng (networkName eng.token) eng.token
                client_args clients 0).2
              ++ [Event.execRun sv.1 (gameStartedCmd cfg)]
              ++ (Event.reloadStatus ::
                  (pollTrace eng.statusAt cfg.check_game_has_finished_interval fuel 0).1)
              ++ write_logs_and_remove_containers eng "container_logs" (sv.1 :: cl.1)
              ++ (remove_images eng (sv.2 :: cl.2)).2, ?_, ?_⟩
            · simp [List.append_assoc]
            · simp only [List.filter_append, List.filter_cons, List.filter_nil, fC, fP 0,
                fW, fI, isVolumeEvent, List.append_nil, List.nil_append]
              try simp
          · have hsuf : ((start_clients cfg eng (networkName eng.token) eng.token
                client_args clients 0).2
              ++ [Event.execRun sv.1 (gameStartedCmd cfg)]
              ++ (Event.reloadStatus ::
                  (pollTrace eng.statusAt cfg.check_game_has_finished_interval fuel 0).1)
              ++ write_logs_and_remove_containers eng "container_logs" (sv.1 :: cl.1)
              ++ (remove_images eng (sv.2 :: cl.2)).2
              ++ [Event.removeNetwork (networkName eng.token)]).filter isVolumeEvent
                = [] := by
              simp only [List.filter_append, List.filter_cons, List.filter_nil, fC, fP 0,
                fW, fI, isVolumeEvent, List.append_nil, List.nil_append]
              try simp
            rcases hw : eng.networkRemove with _ | e4 <;> simp only [hw]
            · exact ⟨_, by simp [List.append_assoc], hsuf⟩
            · exact ⟨_, by simp [List.append_assoc], hsuf⟩
      · rcases hri : (remove_images eng (sv.2 :: cl.2)).1 with e3 | u <;> simp only [hri]
        · refine ⟨(start_clients cfg eng (networkName eng.token) eng.token
              client_args clients 0).2
            ++ [Event.execRun sv.1 (gameStartedCmd cfg)]
            ++ write_logs_and_remove_containers eng "container_logs" (sv.1 :: cl.1)
            ++ (remove_images eng (sv.2 :: cl.2)).2, ?_, ?_⟩
          · simp [List.append_assoc]
          · simp only [List.filter_append, List.filter_cons, List.filter_nil, fC, fW, fI,
              isVolumeEvent, List.append_nil, List.nil_append]
            try simp
        · have hsuf : ((start_clients cfg eng (networkName eng.token) eng.token
              client_args clients 0).2
            ++ [Event.execRun sv.1 (gameStartedCmd cfg)]
            ++ write_logs_and_remove_containers eng "container_logs" (sv.1 :: cl.1)
            ++ (remove_images eng (sv.2 :: cl.2)).2
            ++ [Event.removeNetwork (networkName eng.token)]).filter isVolumeEvent
              = [] := by
            simp only [List.filter_append, List.filter_cons, List.filter_nil, fC, fW, fI,
              isVolumeEvent, List.append_nil, List.nil_append]
            try simp
          rcases hw : eng.networkRemove with _ | e4 <;> simp only [hw]
          · exact ⟨_, by simp [List.append_assoc], hsuf⟩
          · exact ⟨_, by simp [List.append_assoc], hsuf⟩


set_option maxRecDepth 40000 in
/-- C1 counterexample: when the server image build fails, `run_game` ends
with the docker error escaping the call (`Outcome.raised`), no removal event
of any kind occurs (teardown is skipped entirely), and the start signal is
never sent — refuting the claim that teardown always runs and no exception
escapes the top-level call. -/
theorem C1_counterexample_no_teardown_on_build_failure :
    (run_game cfgEx engServerBuildFail 10 "srv:latest" clientsEx [] []).1
        = Outcome.raised DockerErr.apiError ∧
      noRemovalEvents (run_game cfgEx engServerBuildFail 10 "srv:latest" clientsEx [] []).2
        = true ∧
      noExecEvents (run_game cfgEx engServerBuildFail 10 "srv:latest" clientsEx [] []).2
        = true := by
  decide

/-- C1 amended: if a fatal error occurs during the build-up phases (so that
the start signal is never attempted), `run_game` performs no teardown at
all — no container, image, or network removal event occurs — and the error
propagates out of the call as an uncaught exception; StartSignaler is indeed
never invoked in that case. -/
theorem C1_amended_buildup_failure_escapes_without_teardown (cfg : Config) (eng : Engine) (fuel : Nat) (server_image : String)
    (clients : List ClientSpec) (server_args client_args : List String)
    (o : Outcome) (tr : List Event)
    (hrun : run_game cfg eng fuel server_image clients server_args client_args = (o, tr))
    (hno : noExecEvents tr = true) :
    noRemovalEvents tr = true ∧ ∃ e, o = Outcome.raised e := by
  simp only [run_game] at hrun
  rcases hn : eng.networkCreate (networkName eng.token) with _ | e
  · simp only [hn] at hrun
    rcases hs : (start_server cfg eng (networkName eng.token) server_image eng.token
        server_args []).1 with e | sv
    · simp only [hs] at hrun
      cases hrun
      refine ⟨?_, e, rfl⟩
      rw [noRemovalEvents_append,
        (start_server_clean cfg eng (networkName eng.token) server_image eng.token
          server_args []).2.1]
      simp [noRemovalEvents, isRemovalEvent]
    · simp only [hs] at hrun
      rcases hc : (start_clients cfg eng (networkName eng.token) eng.token
          client_args clients 0).1 with e | cl
      · simp only [hc] at hrun
        cases hrun
        refine ⟨?_, e, rfl⟩
        rw [noRemovalEvents_append, noRemovalEvents_append,
          (start_server_clean cfg eng (networkName eng.token) server_image eng.token
            server_args []).2.1,
          (start_clients_clean cfg eng (networkName eng.token) eng.token
            client_args clients 0).2.1]
        simp [noRemovalEvents, isRemovalEvent]
      · simp only [hc] at hrun
        rcases hx : eng.execResult with _ | e2 <;> simp only [hx] at hrun
        · cases hp : (pollTrace eng.statusAt cfg.check_game_has_finished_interval fuel 0).2.isSome <;>
            simp only [hp] at hrun
          · cases hrun
            simp [noExecEvents_append, noExecEvents, isExecEvent] at hno
          · rcases hri : (remove_images eng (sv.2 :: cl.2)).1 with e3 | u <;>
              simp only [hri] at hrun
            · cases hrun
              simp [noExecEvents_append, noExecEvents, isExecEvent] at hno
            · rcases hw : eng.networkRemove with _ | e4 <;> simp only [hw] at hrun <;>
                cases hrun <;>
                simp [noExecEvents_append, noExecEvents, isExecEvent] at hno
        · rcases hri : (remove_images eng (sv.2 :: cl.2)).1 with e3 | u <;>
            simp only [hri] at hrun
          · cases hrun
            simp [noExecEvents_append, noExecEvents, isExecEvent] at hno
          · rcases hw : eng.networkRemove with _ | e4 <;> simp only [hw] at hrun <;>
              cases hrun <;>
              simp [noExecEvents_append, noExecEvents, isExecEvent] at hno
  · simp only [hn] at hrun
    cases hrun
    refine ⟨?_, e, rfl⟩
    simp [noRemovalEvents, isRemovalEvent]

/-- Witness for C1 amended at the failing-server-build engine. -/
theorem C1_amended_buildup_failure_escapes_without_teardown_witness :
    noRemovalEvents (run_game cfgEx engServerBuildFail 10 "srv:latest" clientsEx [] []).2
      = true :=
  (C1_amended_buildup_failure_escapes_without_teardown cfgEx engServerBuildFail 10
    "srv:latest" clientsEx [] []
    (run_game cfgEx engServerBuildFail 10 "srv:latest" clientsEx [] []).1
    (run_game cfgEx engServerBuildFail 10 "srv:latest" clientsEx [] []).2
    rfl (by decide)).1

set_option maxRecDepth 40000 in
/-- C2 counterexample: with an engine on which removing the server image
raises an `APIError` that is not `ImageNotFound`, the error propagates out
of the teardown phase (`Outcome.raised`) and the network is never removed —
refuting both "no exception propagates out of the teardown phase" and
"remaining cleanup still proceeds". -/
theorem C2_counterexample_image_removal_error_escapes :
    (run_game cfgEx engImageRemoveFail 10 "srv:latest" clientsEx [] []).1
        = Outcome.raised DockerErr.apiError ∧
      Event.removeNetwork (networkName "tok3n")
        ∉ (run_game cfgEx engImageRemoveFail 10 "srv:latest" clientsEx [] []).2 := by
  decide

/-- C2 amended: during container teardown every container is processed — a
log-capture failure is logged and tolerated, a removal failure is logged
and tolerated, and the phase is a total function, so no docker error
escapes it; image removal tolerates only `ImageNotFound` — when every image
removal either succeeds or reports image-not-found, all images are
processed and the phase returns normally, but any other docker error from
an image removal propagates immediately, skipping the remaining images and
the network removal; and a failure of the final network removal itself (the
removal having been attempted) propagates out of `run_game` as an uncaught
exception. -/
theorem C2_amended_teardown_tolerance_and_image_exception (cfg : Config) (eng : Engine)
    (fuel : Nat) (folder n img server_image : String)
    (containers imgs rest : List String) (clients : List ClientSpec)
    (server_args client_args : List String) (err e : DockerErr)
    (o : Outcome) (tr : List Event) :
    (n ∈ containers →
        Event.removeContainer n ∈ write_logs_and_remove_containers eng folder containers ∧
          (∀ e2, eng.containerRemove n = some e2 →
            Event.logFailedRemove n ∈ write_logs_and_remove_containers eng folder containers) ∧
          (∀ e2, eng.logsResult n = some e2 →
            Event.logFailedLogs n ∈ write_logs_and_remove_containers eng folder containers)) ∧
      (imagesRemovable eng imgs = true →
        (remove_images eng imgs).1 = Except.ok () ∧
          ∀ t ∈ imgs, Event.removeImage t ∈ (remove_images eng imgs).2) ∧
      (eng.imageRemove img = some DockerErr.apiError →
        remove_images eng (img :: rest)
          = (Except.error DockerErr.apiError, [Event.removeImage img])) ∧
      (run_game cfg eng fuel server_image clients server_args client_args = (o, tr) →
        eng.networkCreate (networkName eng.token) = none →
        eng.buildResult (serverImageName eng.token) = none →
        eng.runResult (serverContainerName eng.token) = none →
        clientsOk eng eng.token clients 0 = true →
        eng.execResult = some err →
        imagesRemovable eng
          (serverImageName eng.token :: clientImageNames eng.token clients) = true →
        eng.networkRemove = some e →
        o = Outcome.raised e ∧ Event.removeNetwork (networkName eng.token) ∈ tr) := by
  refine ⟨fun hn => wlrc_removeContainer_mem eng folder n containers hn,
    fun hi => remove_images_ok eng imgs hi,
    fun h => remove_images_head_fail eng img rest h, ?_⟩
  intro hrun hn hsb hsr hc hx hi hw
  have hs := start_server_ok cfg eng (networkName eng.token) server_image eng.token
    server_args [] hsb hsr
  have hcl := start_clients_ok cfg eng (networkName eng.token) eng.token
    client_args clients 0 hc
  have hri := remove_images_ok eng
    (serverImageName eng.token :: clientImageNames eng.token clients) hi
  simp only [run_game, hn, hs, hcl, hx, hri.1, hw] at hrun
  cases hrun
  refine ⟨rfl, ?_⟩
  simp only [List.mem_append]
  simp

/-- Witness for C2 amended: all four clauses at concrete engines — on a
container whose log fetch and removal both fail, both failures are logged
while the container list is still fully processed; benign image removals
all happen; a non-ImageNotFound image removal error stops the image phase
at once; and a failing network removal is attempted and escapes `run_game`
as a raised error. -/
theorem C2_amended_teardown_tolerance_and_image_exception_witness :
    (Event.removeContainer "c1"
        ∈ write_logs_and_remove_containers engContainerRemoveFail "container_logs"
            ["c1", "c2"] ∧
      Event.logFailedRemove "c1"
        ∈ write_logs_and_remove_containers engContainerRemoveFail "container_logs"
            ["c1", "c2"] ∧
      Event.logFailedLogs "c1"
        ∈ write_logs_and_remove_containers engContainerRemoveFail "container_logs"
            ["c1", "c2"] ∧
      Event.removeContainer "c2"
        ∈ write_logs_and_remove_containers engContainerRemoveFail "container_logs"
            ["c1", "c2"]) ∧
      (remove_images engOk ["i1"]).1 = Except.ok () ∧
      Event.removeImage "i1" ∈ (remove_images engOk ["i1"]).2 ∧
      remove_images engImageRemoveFail [serverImageName "tok3n"]
        = (Except.error DockerErr.apiError,
           [Event.removeImage (serverImageName "tok3n")]) ∧
      (run_game cfgEx engNetworkRemoveFail 10 "srv:latest" clientsEx [] []).1
        = Outcome.raised DockerErr.apiError ∧
      Event.removeNetwork (networkName "tok3n")
        ∈ (run_game cfgEx engNetworkRemoveFail 10 "srv:latest" clientsEx [] []).2 := by
  have hnet := (C2_amended_teardown_tolerance_and_image_exception cfgEx
    engNetworkRemoveFail 10 "container_logs" "c" "x" "srv:latest" [] [] [] clientsEx
    [] [] DockerErr.apiError DockerErr.apiError
    (run_game cfgEx engNetworkRemoveFail 10 "srv:latest" clientsEx [] []).1
    (run_game cfgEx engNetworkRemoveFail 10 "srv:latest" clientsEx [] []).2).2.2.2
    rfl (by decide) (by decide) (by decide) (by decide) (by decide) (by decide) (by decide)
  refine ⟨⟨?_, ?_, ?_, ?_⟩, ?_, ?_, ?_, hnet.1, hnet.2⟩
  · exact ((C2_amended_teardown_tolerance_and_image_exception cfgEx engContainerRemoveFail
      10 "container_logs" "c1" "x" "s" ["c1", "c2"] [] [] [] [] []
      DockerErr.apiError DockerErr.apiError Outcome.ok []).1 (by decide)).1
  · exact ((C2_amended_teardown_tolerance_and_image_exception cfgEx engContainerRemoveFail
      10 "container_logs" "c1" "x" "s" ["c1", "c2"] [] [] [] [] []
      DockerErr.apiError DockerErr.apiError Outcome.ok []).1 (by decide)).2.1
      DockerErr.apiError (by decide)
  · exact ((C2_amended_teardown_tolerance_and_image_exception cfgEx engContainerRemoveFail
      10 "container_logs" "c1" "x" "s" ["c1", "c2"] [] [] [] [] []
      DockerErr.apiError DockerErr.apiError Outcome.ok []).1 (by decide)).2.2
      DockerErr.apiError (by decide)
  · exact ((C2_amended_teardown_tolerance_and_image_exception cfgEx engContainerRemoveFail
      10 "container_logs" "c2" "x" "s" ["c1", "c2"] [] [] [] [] []
      DockerErr.apiError DockerErr.apiError Outcome.ok []).1 (by decide)).1
  · exact ((C2_amended_teardown_tolerance_and_image_exception cfgEx engOk
      10 "container_logs" "c" "x" "s" [] ["i1"] [] [] [] []
      DockerErr.apiError DockerErr.apiError Outcome.ok []).2.1 (by decide)).1
  · exact ((C2_amended_teardown_tolerance_and_image_exception cfgEx engOk
      10 "container_logs" "c" "x" "s" [] ["i1"] [] [] [] []
      DockerErr.apiError DockerErr.apiError Outcome.ok []).2.1 (by decide)).2 "i1" (by decide)
  · exact (C2_amended_teardown_tolerance_and_image_exception cfgEx engImageRemoveFail
      10 "f" "n" (serverImageName "tok3n") "s" [] [] [] [] [] []
      DockerErr.apiError DockerErr.apiError Outcome.ok []).2.2.1 (by decide)

/-- C6: when the start-signal exec raises (and the session reached the
signal with network, server, and all clients up, and teardown operations are
benign), the completion-watch loop is never entered — no reload or sleep
event occurs — and the session proceeds directly to teardown, removing the
server container, every client container, every built image, and the
network, with `run_game` returning normally. -/
theorem C6_signal_failure_skips_polling_and_tears_down (cfg : Config) (eng : Engine) (fuel : Nat) (server_image : String)
    (clients : List ClientSpec) (server_args client_args : List String)
    (err : DockerErr) (o : Outcome) (tr : List Event)
    (hrun : run_game cfg eng fuel server_image clients server_args client_args = (o, tr))
    (hn : eng.networkCreate (networkName eng.token) = none)
    (hsb : eng.buildResult (serverImageName eng.token) = none)
    (hsr : eng.runResult (serverContainerName eng.token) = none)
    (hc : clientsOk eng eng.token clients 0 = true)
    (hx : eng.execResult = some err)
    (hi : imagesRemovable eng
      (serverImageName eng.token :: clientImageNames eng.token clients) = true)
    (hw : eng.networkRemove = none) :
    o = Outcome.ok ∧
      noPollEvents tr = true ∧
      Event.removeContainer (serverContainerName eng.token) ∈ tr ∧
      (∀ p ∈ clientContainerNames eng.token clients 0, Event.removeContainer p ∈ tr) ∧
      (∀ t ∈ serverImageName eng.token :: clientImageNames eng.token clients,
          Event.removeImage t ∈ tr) ∧
      Event.removeNetwork (networkName eng.token) ∈ tr := by
  have hs := start_server_ok cfg eng (networkName eng.token) server_image eng.token
    server_args [] hsb hsr
  have hcl := start_clients_ok cfg eng (networkName eng.token) eng.token client_args clients 0 hc
  have hri := remove_images_ok eng
    (serverImageName eng.token :: clientImageNames eng.token clients) hi
  simp only [run_game, hn, hs, hcl, hx, hri.1, hw] at hrun
  cases hrun
  have f1 := (start_server_clean cfg eng (networkName eng.token) server_image eng.token
    server_args []).2.2
  have f2 := (start_clients_clean cfg eng (networkName eng.token) eng.token
    client_args clients 0).2.2.1
  have f3 := (noEvents_of_silent _ (wlrc_all_silent eng "container_logs"
    (serverContainerName eng.token :: clientContainerNames eng.token clients 0))).2.1
  have f4 := (noEvents_of_silent _ (remove_images_all_silent eng
    (serverImageName eng.token :: clientImageNames eng.token clients))).2.1
  refine ⟨rfl, ?_, ?_, ?_, ?_, ?_⟩
  · simp only [noPollEvents_append, f1, f2, f3, f4, Bool.and_true, Bool.true_and]
    simp [noPollEvents, isPollEvent]
  · have hm := (wlrc_removeContainer_mem eng "container_logs" (serverContainerName eng.token)
      (serverContainerName eng.token :: clientContainerNames eng.token clients 0)
      (List.mem_cons_self _ _)).1
    simp only [List.mem_append]
    tauto
  · intro p hp
    have hm := (wlrc_removeContainer_mem eng "container_logs" p
      (serverContainerName eng.token :: clientContainerNames eng.token clients 0)
      (List.mem_cons_of_mem _ hp)).1
    simp only [List.mem_append]
    tauto
  · intro t ht
    have hm := hri.2 t ht
    simp only [List.mem_append]
    tauto
  · simp only [List.mem_append]
    simp

/-- Witness for C6 at the failing-exec engine with two clients. -/
theorem C6_signal_failure_skips_polling_and_tears_down_witness :
    (run_game cfgEx engExecFail 10 "srv:latest" clientsEx [] []).1 = Outcome.ok ∧
      noPollEvents (run_game cfgEx engExecFail 10 "srv:latest" clientsEx [] []).2 = true ∧
      Event.removeContainer (serverContainerName "tok3n")
        ∈ (run_game cfgEx engExecFail 10 "srv:latest" clientsEx [] []).2 ∧
      Event.removeContainer (clientContainerName 0 "tok3n")
        ∈ (run_game cfgEx engExecFail 10 "srv:latest" clientsEx [] []).2 ∧
      Event.removeImage (serverImageName "tok3n")
        ∈ (run_game cfgEx engExecFail 10 "srv:latest" clientsEx [] []).2 ∧
      Event.removeNetwork (networkName "tok3n")
        ∈ (run_game cfgEx engExecFail 10 "srv:latest" clientsEx [] []).2 := by
  have h := C6_signal_failure_skips_polling_and_tears_down cfgEx engExecFail 10
    "srv:latest" clientsEx [] [] DockerErr.apiError
    (run_game cfgEx engExecFail 10 "srv:latest" clientsEx [] []).1
    (run_game cfgEx engExecFail 10 "srv:latest" clientsEx [] []).2
    rfl (by decide) (by decide) (by decide) (by decide) (by decide) (by decide) (by decide)
  exact ⟨h.1, h.2.1, h.2.2.1, h.2.2.2.1 (clientContainerName 0 "tok3n") (by decide),
    h.2.2.2.2.1 (serverImageName "tok3n") (by decide), h.2.2.2.2.2⟩

/-- C9: once the session's network exists and the server image build
succeeds, the server start force-removes the pre-existing docker volume and
recreates it under the FIXED name `"cq-game-replay"` (independent of the
session token), creates-or-empties the host folder `live_replay_files` under
the current working directory, and mounts both into the server container;
and the only volume operations in the whole session trace are exactly that
force-remove/create pair — in particular teardown performs none, so volume
and folder survive the session and are clobbered by the next one. -/
theorem C9_replay_volume_and_folder_shared_across_sessions (cfg : Config) (eng : Engine) (fuel : Nat) (server_image : String)
    (clients : List ClientSpec) (server_args client_args : List String)
    (o : Outcome) (tr : List Event)
    (hrun : run_game cfg eng fuel server_image clients server_args client_args = (o, tr))
    (hn : eng.networkCreate (networkName eng.token) = none)
    (hsb : eng.buildResult (serverImageName eng.token) = none) :
    replayVolumeName = "cq-game-replay" ∧
      (eng.volumeExists replayVolumeName = true →
        Event.volumeForceRemove replayVolumeName ∈ tr) ∧
      Event.volumeCreate replayVolumeName ∈ tr ∧
      Event.ensureEmptyFolder (eng.cwd ++ "/live_replay_files") ∈ tr ∧
      Event.runContainer (serverRunConfig cfg (networkName eng.token) eng.token
          (eng.cwd ++ "/live_replay_files")) ∈ tr ∧
      (serverRunConfig cfg (networkName eng.token) eng.token
          (eng.cwd ++ "/live_replay_files")).volumes
        = [(replayVolumeName, "/codequest/replay"),
           (eng.cwd ++ "/live_replay_files", "/codequest/live-replay")] ∧
      tr.filter isVolumeEvent = ensure_empty_volume_exists eng replayVolumeName := by
  obtain ⟨suffix, htr, hsuf⟩ := run_game_volume_decomp cfg eng fuel server_image clients
    server_args client_args hn
  rw [hrun] at htr
  dsimp only at htr
  have hevs := start_server_trace_ok cfg eng (networkName eng.token) server_image eng.token
    server_args [] hsb
  rw [hevs] at htr
  refine ⟨rfl, ?_, ?_, ?_, ?_, rfl, ?_⟩
  · intro hv
    rw [htr]
    simp [ensure_empty_volume_exists, hv]
  · rw [htr]
    by_cases hv : eng.volumeExists replayVolumeName <;>
      simp [ensure_empty_volume_exists, hv]
  · rw [htr]
    by_cases hv : eng.volumeExists replayVolumeName <;>
      simp [ensure_empty_volume_exists, hv]
  · rw [htr]
    by_cases hv : eng.volumeExists replayVolumeName <;>
      simp [ensure_empty_volume_exists, hv]
  · rw [htr]
    by_cases hv : eng.volumeExists replayVolumeName <;>
      simp only [ensure_empty_volume_exists, hv, if_true, if_false, List.filter_cons,
        List.filter_append, List.filter_nil, isVolumeEvent, hsuf, List.append_nil,
        List.nil_append, eq_self_iff_true, Bool.false_eq_true]

/-- Witness for C9 on the all-success engine, whose replay volume
pre-exists. -/
theorem C9_replay_volume_and_folder_shared_across_sessions_witness :
    Event.volumeCreate replayVolumeName
        ∈ (run_game cfgEx engOk 10 "srv:latest" clientsEx [] []).2 ∧
      Event.volumeForceRemove replayVolumeName
        ∈ (run_game cfgEx engOk 10 "srv:latest" clientsEx [] []).2 ∧
      Event.ensureEmptyFolder (engOk.cwd ++ "/live_replay_files")
        ∈ (run_game cfgEx engOk 10 "srv:latest" clientsEx [] []).2 ∧
      (run_game cfgEx engOk 10 "srv:latest" clientsEx [] []).2.filter isVolumeEvent
        = ensure_empty_volume_exists engOk replayVolumeName := by
  have h := C9_replay_volume_and_folder_shared_across_sessions cfgEx engOk 10
    "srv:latest" clientsEx [] []
    (run_game cfgEx engOk 10 "srv:latest" clientsEx [] []).1
    (run_game cfgEx engOk 10 "srv:latest" clientsEx [] []).2
    rfl (by decide) (by decide)
  exact ⟨h.2.2.1, h.2.1 (by decide), h.2.2.2.1, h.2.2.2.2.2.2⟩

end Controller
